import Mathlib

/-!
Verification of the PyVMRK trial-processing pipeline (`vmrk.py`).

The development shallowly embeds the analytical core of the program:

* `Code`, `Trial`, `Block` — the data model (`Block` keeps the source's
  parallel-array representation `Code` / `Rtim` / `Ntri`).
* `Block.filter_outliers`, `Block.query` — the outlier filter and the
  conditioned response-time query.
* `assemble` / `process_trial` — the trial assembler (lines 127-154 of the
  source; `assemble` is the record computed at lines 141-152, `process_trial`
  appends it and re-runs the outlier filter).
* `vmrkStep` / `process_vmrk` — the stream segmenter state machine
  (lines 304-389), at the level of parsed marker events.
* `collapse_blocks`, `summarize_vmrk` — the aggregation engine
  (lines 157-301).  Python's raising division is modelled by `divE` in the
  `Except Unit` monad; `np.mean` / `np.std`, which return NaN on empty input,
  return a `StatVal` with an explicit `nan` constructor.  `np.std` computes a
  real square root, which is irrational in general, so `summarize_vmrk` is
  parameterized by the square-root function `sq`; no claim depends on its
  values.
-/

/-- Outlier lower bound (module-level tunable `low = 150`). -/
def low : Int := 150

/-- Outlier upper bound (module-level tunable `high = 3000`). -/
def high : Int := 3000

/-- Delta degrees of freedom used by `np.std` (module-level `ddof = 0`). -/
def ddof : Nat := 0

/-- A stimulus/response code: class `Code` of the source. -/
structure Code where
  side : String
  congruent : Bool
  correct : Bool
deriving DecidableEq

/-- `Code.fromSRCodes`: classify the stimulus code `a` and response code `b`. -/
def Code.fromSRCodes (a b : Int) : Code :=
  { side := if a = 1 ∨ a = 2 then "left" else "right",
    congruent := if a = 1 ∨ a = 3 then true else false,
    correct := if b = 5 ∨ b = 6 then true else false }

/-- Raw information about one marker inside a trial window: class `Trial`. -/
structure Trial where
  srcode : Int
  time : Int
deriving DecidableEq

/-- One block of trials, stored as the source's three parallel lists. -/
structure Block where
  Code : List Code
  Rtim : List Int
  Ntri : List Nat
deriving DecidableEq

/-- `Block.filter_outliers`: keep the indices whose response time lies in
`[lo, hi]` and rebuild all three parallel lists from that index list. -/
def Block.filter_outliers (b : Block) (lo hi : Int) : Block :=
  let ii := (b.Rtim.enum.filter (fun p => lo ≤ p.2 && p.2 ≤ hi)).map Prod.fst
  { Code := ii.map (fun i => b.Code.getD i ⟨"", false, false⟩),
    Rtim := ii.map (fun i => b.Rtim.getD i 0),
    Ntri := ii.map (fun i => b.Ntri.getD i 0) }

/-- The three non-sequential predicates of `Block.query` (the `side`,
`congruent` and `correct` `continue` tests). -/
def sccMatch (side : Option String) (congruent correct : Option Bool)
    (c : Code) : Bool :=
  (match side with | none => true | some s => c.side == s)
    && (match congruent with | none => true | some cg => c.congruent == cg)
    && (match correct with | none => true | some co => c.correct == co)

/-- `Block.query`: response times of the records matching the given
predicates.  The `lastcorrect` test is only applied at positions `j > 0`,
exactly as in the source (`if lastcorrect is not None and j > 0`). -/
def Block.query (b : Block) (side : Option String)
    (congruent correct lastcorrect : Option Bool) : List Int :=
  ((b.Code.zip b.Rtim).enum.filter (fun p =>
      sccMatch side congruent correct p.2.1
        && (match lastcorrect with
            | none => true
            | some lc =>
                if p.1 > 0 then
                  (b.Code.getD (p.1 - 1) ⟨"", false, false⟩).correct == lc
                else true))).map (fun p => p.2.2)

/-- The trial record computed by `process_trial` (lines 141-152): `none` when
the window is shorter than 3 markers or does not start with the fixation code
99; otherwise the classified code, the response time
`2 * (qu[2].time - qu[1].time)` and the window length. -/
def assemble (qu : List Trial) : Option (Code × Int × Nat) :=
  if qu.length < 3 ∨ (qu.getD 0 ⟨0, 0⟩).srcode ≠ 99 then none
  else some
    (Code.fromSRCodes (qu.getD 1 ⟨0, 0⟩).srcode (qu.getD 2 ⟨0, 0⟩).srcode,
     2 * ((qu.getD 2 ⟨0, 0⟩).time - (qu.getD 1 ⟨0, 0⟩).time),
     qu.length)

/-- `process_trial`: append the assembled record (if any) to the block and
immediately re-run the outlier filter with the module bounds. -/
def process_trial (qu : List Trial) (block : Block) : Block :=
  match assemble qu with
  | none => block
  | some (c, rt, n) =>
      Block.filter_outliers
        { Code := block.Code ++ [c],
          Rtim := block.Rtim ++ [rt],
          Ntri := block.Ntri ++ [n] } low high

/-- `collapse_blocks`: concatenate all blocks' parallel lists in order. -/
def collapse_blocks (data : List Block) : Block :=
  data.foldl
    (fun blk b =>
      { Code := blk.Code ++ b.Code,
        Rtim := blk.Rtim ++ b.Rtim,
        Ntri := blk.Ntri ++ b.Ntri })
    { Code := [], Rtim := [], Ntri := [] }

/-- One parsed marker line: a comment, an unrecognized kind (both skipped by
the reader loop), or a stimulus event carrying its code and timestamp. -/
inductive Marker where
  | comment : Marker
  | unknown : Marker
  | stimulus : Int → Int → Marker
deriving DecidableEq

/-- Segmenter state: the mutable locals of `process_vmrk`. -/
structure PState where
  blocknum : Nat
  dblock : Nat
  practiceMode : Bool
  n99 : Nat
  n144 : Bool
  qu : List Trial
  data : List Block
  block : Block
deriving DecidableEq

/-- Initial segmenter state (`mode = "practice"`, everything empty). -/
def initState : PState :=
  { blocknum := 0, dblock := 0, practiceMode := true, n99 := 0, n144 := false,
    qu := [], data := [], block := { Code := [], Rtim := [], Ntri := [] } }

/-- One iteration of the `process_vmrk` reader loop. -/
def vmrkStep (st : PState) (m : Marker) : PState :=
  match m with
  | .comment => st
  | .unknown => st
  | .stimulus stimcode time =>
      if st.practiceMode then
        let n99 := if stimcode = 99 then st.n99 + 1 else st.n99
        let n144 := if n99 = 3 ∧ stimcode = 144 then true else st.n144
        if n99 = 3 ∧ n144 = true ∧ stimcode = 255 then
          { st with n99 := n99, n144 := n144, practiceMode := false }
        else
          { st with n99 := n99, n144 := n144 }
      else
        let qu := st.qu ++ [⟨stimcode, time⟩]
        if stimcode = 144 ∨ stimcode = 255 then
          if st.dblock > 0 then
            { st with qu := [⟨stimcode, time⟩],
                      blocknum := st.blocknum + 1,
                      dblock := 0,
                      data := st.data ++ [process_trial qu.dropLast st.block],
                      block := { Code := [], Rtim := [], Ntri := [] } }
          else
            { st with qu := qu }
        else
          let dblock := st.dblock + 1
          if stimcode = 99 then
            { st with qu := [⟨stimcode, time⟩], dblock := dblock,
                      block := process_trial qu.dropLast st.block }
          else
            { st with qu := qu, dblock := dblock }

/-- The segmenter state after consuming a whole marker stream. -/
def process_vmrk_state (ms : List Marker) : PState :=
  ms.foldl vmrkStep initState

/-- `process_vmrk`: the list of completed blocks.  The source's final
`process_trial(qu, block)` writes into the in-progress block, which is never
appended to `data`, so the returned value is the accumulated `data` alone. -/
def process_vmrk (ms : List Marker) : List Block :=
  (process_vmrk_state ms).data

/-- A summary-statistic value: a number, NaN (what `np.mean` / `np.std`
return on empty input), or the string-valued subject id. -/
inductive StatVal where
  | num : ℚ → StatVal
  | nan : StatVal
  | str : String → StatVal
deriving DecidableEq

/-- `np.mean`: NaN on an empty list, otherwise the arithmetic mean. -/
def npMean (l : List Int) : StatVal :=
  if l = [] then .nan else .num ((l.sum : ℚ) / (l.length : ℚ))

/-- `np.std(·, ddof)`: NaN when there are at most `ddof` observations,
otherwise `sq` applied to the (population, for `ddof = 0`) variance, where
`sq` stands for the real square-root function. -/
def npStd (sq : ℚ → ℚ) (l : List Int) : StatVal :=
  if l.length ≤ ddof then .nan
  else
    .num (sq ((l.map (fun x => ((x : ℚ) - (l.sum : ℚ) / (l.length : ℚ)) ^ 2)).sum
        / ((l.length : ℚ) - (ddof : ℚ))))

/-- Python's true division, which raises `ZeroDivisionError` on a zero
denominator. -/
def divE (a b : ℚ) : Except Unit ℚ :=
  if b = 0 then .error () else .ok (a / b)

/-- The ordered result mapping of `summarize_vmrk`, in the source's
insertion order (the `OrderedDict` of lines 179-301). -/
def mkResults (sid : String) (fcn fen : ℕ) (facc : ℚ)
    (frtm frtsd frtmc frtsdc frtme frtsde : StatVal)
    (fccn : ℕ) (fcrtmc fcrtsdc : StatVal)
    (fcen : ℕ) (fcrtme fcrtsde : StatVal) (fcacc : ℚ)
    (ficn : ℕ) (firtmc firtsdc : StatVal)
    (fien : ℕ) (firtme firtsde : StatVal) (fiacc : ℚ)
    (fpccn fpcen : ℤ) (fpcertm : ℚ) (fpecn : ℤ) (fpecrtm : ℚ)
    (fpeen : ℤ) (fpeertm : ℚ) (fpexn : ℤ) (fpexrtm : ℚ)
    (fpxen : ℤ) (fpxertm : ℚ) (faccpc faccpe : ℚ)
    (fan faen fscn : ℕ) : List (String × StatVal) :=
  [("sid", StatVal.str sid), ("fcn", StatVal.num (fcn : ℚ)),
   ("fen", StatVal.num (fen : ℚ)), ("facc", StatVal.num facc),
   ("frtm", frtm), ("frtsd", frtsd),
   ("frtmc", frtmc), ("frtsdc", frtsdc),
   ("frtme", frtme), ("frtsde", frtsde),
   ("fccn", StatVal.num (fccn : ℚ)), ("fcrtmc", fcrtmc), ("fcrtsdc", fcrtsdc),
   ("fcen", StatVal.num (fcen : ℚ)), ("fcrtme", fcrtme), ("fcrtsde", fcrtsde),
   ("fcacc", StatVal.num fcacc),
   ("ficn", StatVal.num (ficn : ℚ)), ("firtmc", firtmc), ("firtsdc", firtsdc),
   ("fien", StatVal.num (fien : ℚ)), ("firtme", firtme), ("firtsde", firtsde),
   ("fiacc", StatVal.num fiacc),
   ("fpccn", StatVal.num (fpccn : ℚ)), ("fpcen", StatVal.num (fpcen : ℚ)),
   ("fpcertm", StatVal.num fpcertm),
   ("fpecn", StatVal.num (fpecn : ℚ)), ("fpecrtm", StatVal.num fpecrtm),
   ("fpeen", StatVal.num (fpeen : ℚ)), ("fpeertm", StatVal.num fpeertm),
   ("fpexn", StatVal.num (fpexn : ℚ)), ("fpexrtm", StatVal.num fpexrtm),
   ("fpxen", StatVal.num (fpxen : ℚ)), ("fpxertm", StatVal.num fpxertm),
   ("faccpc", StatVal.num faccpc), ("faccpe", StatVal.num faccpe),
   ("fpes", StatVal.num (fpeertm - fpecrtm)),
   ("fpes2", StatVal.num (fpcertm - fpecrtm)),
   ("fpes3", StatVal.num (fpxertm - fpexrtm)),
   ("fan", StatVal.num (fan : ℚ)), ("faen", StatVal.num (faen : ℚ)),
   ("fscn", StatVal.num (fscn : ℚ))]

/-- The anticipatory-response test of `summarize_vmrk`: response time
strictly below the fixed threshold 150 (`np.asarray(...) < 150`). -/
def isAnticipatory (x : Int) : Bool := x < 150

/-- The excess-response test of `summarize_vmrk`: more than 3 markers were
captured in the trial window (`np.asarray(cdata.Ntri) > 3`). -/
def hasExtraResponses (n : Nat) : Bool := n > 3

/-- `summarize_vmrk`: the full ordered statistic mapping, in the source's
insertion order.  The five plain divisions (`facc`, `fcacc`, `fiacc`,
`faccpc`, `faccpe`) raise on a zero denominator and are sequenced in the
`Except` monad at the source's program points; everything else is pure. -/
def summarize_vmrk (sq : ℚ → ℚ) (filename : String) (data : List Block) :
    Except Unit (List (String × StatVal)) := do
  let cdata := collapse_blocks data
  let sid := (filename.splitOn ".").getD 0 ""
  let all_trials := cdata.Rtim
  let correct_trials :=
    ((cdata.Code.zip cdata.Rtim).filter (fun p => p.1.correct)).map (fun p => p.2)
  let error_trials :=
    ((cdata.Code.zip cdata.Rtim).filter (fun p => !p.1.correct)).map (fun p => p.2)
  let fcn := correct_trials.length
  let fen := error_trials.length
  let facc ← divE ((100 * fcn : ℕ) : ℚ) ((all_trials.length : ℕ) : ℚ)
  let vcc := cdata.query none (some true) (some true) none
  let fccn := vcc.length
  let vce := cdata.query none (some true) (some false) none
  let fcen := vce.length
  let fcacc ← divE ((100 * fccn : ℕ) : ℚ) ((fccn + fcen : ℕ) : ℚ)
  let vic := cdata.query none (some false) (some true) none
  let ficn := vic.length
  let vie := cdata.query none (some false) (some false) none
  let fien := vie.length
  let fiacc ← divE ((100 * ficn : ℕ) : ℚ) ((ficn + fien : ℕ) : ℚ)
  let vpcc := data.map (fun b => b.query none none (some true) (some true))
  let fpccn : ℤ := (vpcc.map (fun x => max 0 ((x.length : ℤ) - 1))).sum
  let vpce := data.map (fun b => b.query none none (some false) (some true))
  let fpcen : ℤ := (vpce.map (fun x => max 0 ((x.length : ℤ) - 1))).sum
  let fpcertm : ℚ :=
    if fpcen > 0 then (((vpce.map (fun x => (x.drop 1).sum)).sum : ℤ) : ℚ) / (fpcen : ℚ)
    else 0
  let vpec := data.map (fun b => b.query none none (some true) (some false))
  let fpecn : ℤ := (vpec.map (fun x => max 0 ((x.length : ℤ) - 1))).sum
  let fpecrtm : ℚ :=
    if fpecn > 0 then (((vpec.map (fun x => (x.drop 1).sum)).sum : ℤ) : ℚ) / (fpecn : ℚ)
    else 0
  let vpee := data.map (fun b => b.query none none (some false) (some false))
  let fpeen : ℤ := (vpee.map (fun x => max 0 ((x.length : ℤ) - 1))).sum
  let fpeertm : ℚ :=
    if fpeen > 0 then (((vpee.map (fun x => (x.drop 1).sum)).sum : ℤ) : ℚ) / (fpeen : ℚ)
    else 0
  let vpex := data.map (fun b => b.query none none none (some false))
  let fpexn : ℤ := (vpex.map (fun x => max 0 ((x.length : ℤ) - 1))).sum
  let fpexrtm : ℚ :=
    if fpexn > 0 then (((vpex.map (fun x => (x.drop 1).sum)).sum : ℤ) : ℚ) / (fpexn : ℚ)
    else 0
  let vpxe := data.map (fun b => b.query none none (some false) none)
  let fpxen : ℤ := (vpxe.map (fun x => max 0 ((x.length : ℤ) - 1))).sum
  let fpxertm : ℚ :=
    if fpxen > 0 then (((vpxe.map (fun x => (x.drop 1).sum)).sum : ℤ) : ℚ) / (fpxen : ℚ)
    else 0
  let faccpc ← divE (fpccn : ℚ) ((fpccn + fpcen : ℤ) : ℚ)
  let faccpe ← divE (fpecn : ℚ) ((fpecn + fpeen : ℤ) : ℚ)
  .ok (mkResults sid fcn fen facc
    (npMean all_trials) (npStd sq all_trials)
    (npMean correct_trials) (npStd sq correct_trials)
    (npMean error_trials) (npStd sq error_trials)
    fccn (npMean vcc) (npStd sq vcc)
    fcen (npMean vce) (npStd sq vce) fcacc
    ficn (npMean vic) (npStd sq vic)
    fien (npMean vie) (npStd sq vie) fiacc
    fpccn fpcen fpcertm fpecn fpecrtm fpeen fpeertm
    fpexn fpexrtm fpxen fpxertm faccpc faccpe
    (all_trials.countP isAnticipatory)
    (error_trials.countP isAnticipatory)
    (cdata.Ntri.countP hasExtraResponses))

/-- The value `summarize_vmrk` returns when no division raises: the same
computation with the five guarded divisions replaced by plain division. -/
def summarizeOk (sq : ℚ → ℚ) (filename : String) (data : List Block) :
    List (String × StatVal) :=
  let cdata := collapse_blocks data
  let sid := (filename.splitOn ".").getD 0 ""
  let all_trials := cdata.Rtim
  let correct_trials :=
    ((cdata.Code.zip cdata.Rtim).filter (fun p => p.1.correct)).map (fun p => p.2)
  let error_trials :=
    ((cdata.Code.zip cdata.Rtim).filter (fun p => !p.1.correct)).map (fun p => p.2)
  let fcn := correct_trials.length
  let fen := error_trials.length
  let facc := ((100 * fcn : ℕ) : ℚ) / ((all_trials.length : ℕ) : ℚ)
  let vcc := cdata.query none (some true) (some true) none
  let fccn := vcc.length
  let vce := cdata.query none (some true) (some false) none
  let fcen := vce.length
  let fcacc := ((100 * fccn : ℕ) : ℚ) / ((fccn + fcen : ℕ) : ℚ)
  let vic := cdata.query none (some false) (some true) none
  let ficn := vic.length
  let vie := cdata.query none (some false) (some false) none
  let fien := vie.length
  let fiacc := ((100 * ficn : ℕ) : ℚ) / ((ficn + fien : ℕ) : ℚ)
  let vpcc := data.map (fun b => b.query none none (some true) (some true))
  let fpccn : ℤ := (vpcc.map (fun x => max 0 ((x.length : ℤ) - 1))).sum
  let vpce := data.map (fun b => b.query none none (some false) (some true))
  let fpcen : ℤ := (vpce.map (fun x => max 0 ((x.length : ℤ) - 1))).sum
  let fpcertm : ℚ :=
    if fpcen > 0 then (((vpce.map (fun x => (x.drop 1).sum)).sum : ℤ) : ℚ) / (fpcen : ℚ)
    else 0
  let vpec := data.map (fun b => b.query none none (some true) (some false))
  let fpecn : ℤ := (vpec.map (fun x => max 0 ((x.length : ℤ) - 1))).sum
  let fpecrtm : ℚ :=
    if fpecn > 0 then (((vpec.map (fun x => (x.drop 1).sum)).sum : ℤ) : ℚ) / (fpecn : ℚ)
    else 0
  let vpee := data.map (fun b => b.query none none (some false) (some false))
  let fpeen : ℤ := (vpee.map (fun x => max 0 ((x.length : ℤ) - 1))).sum
  let fpeertm : ℚ :=
    if fpeen > 0 then (((vpee.map (fun x => (x.drop 1).sum)).sum : ℤ) : ℚ) / (fpeen : ℚ)
    else 0
  let vpex := data.map (fun b => b.query none none none (some false))
  let fpexn : ℤ := (vpex.map (fun x => max 0 ((x.length : ℤ) - 1))).sum
  let fpexrtm : ℚ :=
    if fpexn > 0 then (((vpex.map (fun x => (x.drop 1).sum)).sum : ℤ) : ℚ) / (fpexn : ℚ)
    else 0
  let vpxe := data.map (fun b => b.query none none (some false) none)
  let fpxen : ℤ := (vpxe.map (fun x => max 0 ((x.length : ℤ) - 1))).sum
  let fpxertm : ℚ :=
    if fpxen > 0 then (((vpxe.map (fun x => (x.drop 1).sum)).sum : ℤ) : ℚ) / (fpxen : ℚ)
    else 0
  let faccpc := (fpccn : ℚ) / ((fpccn + fpcen : ℤ) : ℚ)
  let faccpe := (fpecn : ℚ) / ((fpecn + fpeen : ℤ) : ℚ)
  mkResults sid fcn fen facc
    (npMean all_trials) (npStd sq all_trials)
    (npMean correct_trials) (npStd sq correct_trials)
    (npMean error_trials) (npStd sq error_trials)
    fccn (npMean vcc) (npStd sq vcc)
    fcen (npMean vce) (npStd sq vce) fcacc
    ficn (npMean vic) (npStd sq vic)
    fien (npMean vie) (npStd sq vie) fiacc
    fpccn fpcen fpcertm fpecn fpecrtm fpeen fpeertm
    fpexn fpexrtm fpxen fpxertm faccpc faccpe
    (all_trials.countP isAnticipatory)
    (error_trials.countP isAnticipatory)
    (cdata.Ntri.countP hasExtraResponses)

/-- Denominator of the `facc` statistic: the total number of trials. -/
def dAll (data : List Block) : ℚ :=
  (((collapse_blocks data).Rtim.length : ℕ) : ℚ)

/-- Denominator of the `fcacc` statistic: congruent correct plus congruent
error trials. -/
def dCong (data : List Block) : ℚ :=
  ((((collapse_blocks data).query none (some true) (some true) none).length
      + ((collapse_blocks data).query none (some true) (some false) none).length : ℕ) : ℚ)

/-- Denominator of the `fiacc` statistic: incongruent correct plus
incongruent error trials. -/
def dIncong (data : List Block) : ℚ :=
  ((((collapse_blocks data).query none (some false) (some true) none).length
      + ((collapse_blocks data).query none (some false) (some false) none).length : ℕ) : ℚ)

/-- Denominator of the `faccpc` statistic: post-correct correct plus
post-correct error counts. -/
def dPostC (data : List Block) : ℚ :=
  ((((data.map (fun b => b.query none none (some true) (some true))).map
        (fun x => max 0 ((x.length : ℤ) - 1))).sum
      + ((data.map (fun b => b.query none none (some false) (some true))).map
        (fun x => max 0 ((x.length : ℤ) - 1))).sum : ℤ) : ℚ)

/-- Denominator of the `faccpe` statistic: post-error correct plus
post-error error counts. -/
def dPostE (data : List Block) : ℚ :=
  ((((data.map (fun b => b.query none none (some true) (some false))).map
        (fun x => max 0 ((x.length : ℤ) - 1))).sum
      + ((data.map (fun b => b.query none none (some false) (some false))).map
        (fun x => max 0 ((x.length : ℤ) - 1))).sum : ℤ) : ℚ)

/-- The `fpcen` count (post-correct error trials, first of each block not
counted). -/
def fpcenCount (data : List Block) : ℤ :=
  ((data.map (fun b => b.query none none (some false) (some true))).map
    (fun x => max 0 ((x.length : ℤ) - 1))).sum

/-- The `fpecn` count (post-error correct trials). -/
def fpecnCount (data : List Block) : ℤ :=
  ((data.map (fun b => b.query none none (some true) (some false))).map
    (fun x => max 0 ((x.length : ℤ) - 1))).sum

/-- The `fpeen` count (post-error error trials). -/
def fpeenCount (data : List Block) : ℤ :=
  ((data.map (fun b => b.query none none (some false) (some false))).map
    (fun x => max 0 ((x.length : ℤ) - 1))).sum

/-- The `fpexn` count (post-error any trials). -/
def fpexnCount (data : List Block) : ℤ :=
  ((data.map (fun b => b.query none none none (some false))).map
    (fun x => max 0 ((x.length : ℤ) - 1))).sum

/-- The `fpxen` count (post-any error trials). -/
def fpxenCount (data : List Block) : ℤ :=
  ((data.map (fun b => b.query none none (some false) none)).map
    (fun x => max 0 ((x.length : ℤ) - 1))).sum

/-- Invariant carried through the segmenter: every completed block and the
in-progress block only hold filtered response times. -/
def StInv (st : PState) : Prop :=
  (∀ b ∈ st.data, ∀ rt ∈ b.Rtim, low ≤ rt ∧ rt ≤ high)
    ∧ (∀ rt ∈ st.block.Rtim, low ≤ rt ∧ rt ≤ high)

/-- Identity used as a stand-in square root when evaluating witnesses (no
claim depends on the square-root values). -/
def sq0 : ℚ → ℚ := fun q => q

/-- A one-record block whose single record matches any predicate set. -/
def cexBlockC1 : Block :=
  { Code := [⟨"left", true, true⟩], Rtim := [200], Ntri := [3] }

/-- The marker stream of end-to-end scenario A: the practice gating sequence,
then one block with trials `S99, S1, S5` (raw delta 10) and an `S144`. -/
def scenarioA : List Marker :=
  [.stimulus 99 1, .stimulus 99 2, .stimulus 99 3, .stimulus 144 4,
   .stimulus 255 5,
   .stimulus 99 10, .stimulus 1 11, .stimulus 5 21, .stimulus 144 30]

/-- A stream with four `S99`s before the `S144`: the 144 arrives when the
99-counter is already past 3, so the gate never fires. -/
def cexStreamC3 : List Marker :=
  [.stimulus 99 1, .stimulus 99 2, .stimulus 99 3, .stimulus 99 4,
   .stimulus 144 5, .stimulus 255 6]

/-- A practice state ready to transition (third 99 seen, 144 seen). -/
def stC3 : PState :=
  { blocknum := 0, dblock := 0, practiceMode := true, n99 := 3, n144 := true,
    qu := [], data := [], block := { Code := [], Rtim := [], Ntri := [] } }

/-- A single-block dataset with an empty congruent-correct cell, all five
accuracy denominators nonzero, and a zero `fpeen` count. -/
def d4 : List Block :=
  [{ Code := [⟨"left", true, false⟩, ⟨"right", false, true⟩,
       ⟨"right", false, true⟩, ⟨"right", false, false⟩,
       ⟨"right", false, true⟩, ⟨"right", false, true⟩],
     Rtim := [200, 300, 400, 500, 600, 700],
     Ntri := [3, 3, 3, 3, 3, 3] }]

/-- A full marker stream: practice gating, then one block of five trials
(codes 1/5, 4/5, 1/7, 4/7, 1/5 with response times 200..600), then `S144`. -/
def s10 : List Marker :=
  [.stimulus 99 1, .stimulus 99 2, .stimulus 99 3, .stimulus 144 4,
   .stimulus 255 5,
   .stimulus 99 10, .stimulus 1 11, .stimulus 5 111,
   .stimulus 99 200, .stimulus 4 201, .stimulus 5 351,
   .stimulus 99 400, .stimulus 1 401, .stimulus 7 601,
   .stimulus 99 700, .stimulus 4 701, .stimulus 7 951,
   .stimulus 99 1000, .stimulus 1 1001, .stimulus 5 1301,
   .stimulus 144 1400]

/-- First block for the collapse/query witness. -/
def blkW1 : Block :=
  { Code := [⟨"left", true, true⟩, ⟨"right", false, false⟩],
    Rtim := [200, 300], Ntri := [3, 3] }

/-- Second block for the collapse/query witness. -/
def blkW2 : Block :=
  { Code := [⟨"left", false, true⟩], Rtim := [400], Ntri := [3] }

/-- A dataset whose records are all correct (for the raise-on-empty-error
witness). -/
def dAllCorrect : List Block :=
  [{ Code := [⟨"left", true, true⟩, ⟨"right", false, true⟩],
     Rtim := [200, 300], Ntri := [3, 3] }]

lemma divE_bind {β : Type} (a b : ℚ) (k : ℚ → Except Unit β) :
    divE a b >>= k = if b = 0 then .error () else k (a / b) := by
  unfold divE
  split <;> rfl

set_option maxHeartbeats 1000000 in
lemma summarize_eq (sq : ℚ → ℚ) (f : String) (data : List Block) :
    summarize_vmrk sq f data =
      if dAll data = 0 ∨ dCong data = 0 ∨ dIncong data = 0
          ∨ dPostC data = 0 ∨ dPostE data = 0
      then .error () else .ok (summarizeOk sq f data) := by
  unfold summarize_vmrk summarizeOk dAll dCong dIncong dPostC dPostE
  simp only [divE_bind]
  split_ifs <;> first | rfl | tauto

lemma lookup_fpcertm (sq : ℚ → ℚ) (f : String) (data : List Block) :
    List.lookup "fpcertm" (summarizeOk sq f data) =
      some (StatVal.num
        (if fpcenCount data > 0 then
          ((((data.map (fun b => b.query none none (some false) (some true))).map
              (fun x => (x.drop 1).sum)).sum : ℤ) : ℚ) / (fpcenCount data : ℚ)
        else 0)) := by
  unfold fpcenCount
  rfl

lemma lookup_fpecrtm (sq : ℚ → ℚ) (f : String) (data : List Block) :
    List.lookup "fpecrtm" (summarizeOk sq f data) =
      some (StatVal.num
        (if fpecnCount data > 0 then
          ((((data.map (fun b => b.query none none (some true) (some false))).map
              (fun x => (x.drop 1).sum)).sum : ℤ) : ℚ) / (fpecnCount data : ℚ)
        else 0)) := by
  unfold fpecnCount
  rfl

lemma lookup_fpeertm (sq : ℚ → ℚ) (f : String) (data : List Block) :
    List.lookup "fpeertm" (summarizeOk sq f data) =
      some (StatVal.num
        (if fpeenCount data > 0 then
          ((((data.map (fun b => b.query none none (some false) (some false))).map
              (fun x => (x.drop 1).sum)).sum : ℤ) : ℚ) / (fpeenCount data : ℚ)
        else 0)) := by
  unfold fpeenCount
  rfl

lemma lookup_fpexrtm (sq : ℚ → ℚ) (f : String) (data : List Block) :
    List.lookup "fpexrtm" (summarizeOk sq f data) =
      some (StatVal.num
        (if fpexnCount data > 0 then
          ((((data.map (fun b => b.query none none none (some false))).map
              (fun x => (x.drop 1).sum)).sum : ℤ) : ℚ) / (fpexnCount data : ℚ)
        else 0)) := by
  unfold fpexnCount
  rfl

lemma lookup_fpxertm (sq : ℚ → ℚ) (f : String) (data : List Block) :
    List.lookup "fpxertm" (summarizeOk sq f data) =
      some (StatVal.num
        (if fpxenCount data > 0 then
          ((((data.map (fun b => b.query none none (some false) none)).map
              (fun x => (x.drop 1).sum)).sum : ℤ) : ℚ) / (fpxenCount data : ℚ)
        else 0)) := by
  unfold fpxenCount
  rfl

lemma lookup_fcrtmc (sq : ℚ → ℚ) (f : String) (data : List Block) :
    List.lookup "fcrtmc" (summarizeOk sq f data) =
      some (npMean ((collapse_blocks data).query none (some true) (some true) none)) := rfl

lemma lookup_fcrtsdc (sq : ℚ → ℚ) (f : String) (data : List Block) :
    List.lookup "fcrtsdc" (summarizeOk sq f data) =
      some (npStd sq ((collapse_blocks data).query none (some true) (some true) none)) := rfl

lemma lookup_fcrtme (sq : ℚ → ℚ) (f : String) (data : List Block) :
    List.lookup "fcrtme" (summarizeOk sq f data) =
      some (npMean ((collapse_blocks data).query none (some true) (some false) none)) := rfl

lemma lookup_fcrtsde (sq : ℚ → ℚ) (f : String) (data : List Block) :
    List.lookup "fcrtsde" (summarizeOk sq f data) =
      some (npStd sq ((collapse_blocks data).query none (some true) (some false) none)) := rfl

lemma lookup_firtmc (sq : ℚ → ℚ) (f : String) (data : List Block) :
    List.lookup "firtmc" (summarizeOk sq f data) =
      some (npMean ((collapse_blocks data).query none (some false) (some true) none)) := rfl

lemma lookup_firtsdc (sq : ℚ → ℚ) (f : String) (data : List Block) :
    List.lookup "firtsdc" (summarizeOk sq f data) =
      some (npStd sq ((collapse_blocks data).query none (some false) (some true) none)) := rfl

lemma lookup_firtme (sq : ℚ → ℚ) (f : String) (data : List Block) :
    List.lookup "firtme" (summarizeOk sq f data) =
      some (npMean ((collapse_blocks data).query none (some false) (some false) none)) := rfl

lemma lookup_firtsde (sq : ℚ → ℚ) (f : String) (data : List Block) :
    List.lookup "firtsde" (summarizeOk sq f data) =
      some (npStd sq ((collapse_blocks data).query none (some false) (some false) none)) := rfl

lemma lookup_fan (sq : ℚ → ℚ) (f : String) (data : List Block) :
    List.lookup "fan" (summarizeOk sq f data) =
      some (StatVal.num
        (((collapse_blocks data).Rtim.countP isAnticipatory : ℕ) : ℚ)) := rfl

lemma lookup_faen (sq : ℚ → ℚ) (f : String) (data : List Block) :
    List.lookup "faen" (summarizeOk sq f data) =
      some (StatVal.num
        (((((collapse_blocks data).Code.zip (collapse_blocks data).Rtim).filter
              (fun p => !p.1.correct)).map (fun p => p.2)
            |>.countP isAnticipatory : ℕ) : ℚ)) := rfl

lemma npMean_nil : npMean [] = .nan := rfl

lemma npStd_nil (sq : ℚ → ℚ) : npStd sq [] = .nan := rfl

lemma collapse_aux (data : List Block) :
    ∀ acc : Block,
      data.foldl
        (fun blk b =>
          { Code := blk.Code ++ b.Code,
            Rtim := blk.Rtim ++ b.Rtim,
            Ntri := blk.Ntri ++ b.Ntri })
        acc
      = { Code := acc.Code ++ (data.map (fun b => b.Code)).flatten,
          Rtim := acc.Rtim ++ (data.map (fun b => b.Rtim)).flatten,
          Ntri := acc.Ntri ++ (data.map (fun b => b.Ntri)).flatten } := by
  induction data with
  | nil => intro acc; simp
  | cons b t ih =>
      intro acc
      rw [List.foldl_cons, ih]
      simp [List.append_assoc]

lemma collapse_blocks_eq (data : List Block) :
    collapse_blocks data
      = { Code := (data.map (fun b => b.Code)).flatten,
          Rtim := (data.map (fun b => b.Rtim)).flatten,
          Ntri := (data.map (fun b => b.Ntri)).flatten } := by
  unfold collapse_blocks
  rw [collapse_aux]
  simp

lemma filter_outliers_Rtim_mem {b : Block} {lo hi x : Int}
    (hx : x ∈ (Block.filter_outliers b lo hi).Rtim) : lo ≤ x ∧ x ≤ hi := by
  unfold Block.filter_outliers at hx
  simp only [List.map_map, List.mem_map, Function.comp, List.mem_filter] at hx
  obtain ⟨⟨i, y⟩, ⟨hmem, hpred⟩, hval⟩ := hx
  dsimp only at hval
  have hy : b.Rtim.get? i = some y := by
    simpa [List.get?_eq_getElem?] using List.mem_enum_iff_getElem?.mp hmem
  have hgd : b.Rtim.getD i 0 = y := by
    rw [List.getD_eq_getD_get?, hy]
    rfl
  rw [← hval, hgd]
  simp only [Bool.and_eq_true, decide_eq_true_eq] at hpred
  exact hpred

lemma range_map_getD {α : Type} (L : List α) (d : α) :
    (List.range L.length).map (fun i => L.getD i d) = L := by
  induction L with
  | nil => rfl
  | cons a t ih =>
      rw [List.length_cons, List.range_succ_eq_map, List.map_cons, List.map_map]
      simp only [List.getD_cons_zero, Function.comp_def, List.getD_cons_succ]
      rw [ih]

lemma process_trial_bounds {qu : List Trial} {b : Block}
    (hb : ∀ rt ∈ b.Rtim, low ≤ rt ∧ rt ≤ high) :
    ∀ rt ∈ (process_trial qu b).Rtim, low ≤ rt ∧ rt ≤ high := by
  unfold process_trial
  cases h : assemble qu with
  | none => exact hb
  | some v =>
      obtain ⟨c, rt, n⟩ := v
      intro r hr
      exact filter_outliers_Rtim_mem hr

lemma StInv_ite {c : Prop} [Decidable c] {A B : PState}
    (hA : StInv A) (hB : StInv B) : StInv (if c then A else B) := by
  split
  · exact hA
  · exact hB

lemma vmrkStep_inv (st : PState) (m : Marker) (h : StInv st) :
    StInv (vmrkStep st m) := by
  obtain ⟨hd, hb⟩ := h
  cases m with
  | comment => exact ⟨hd, hb⟩
  | unknown => exact ⟨hd, hb⟩
  | stimulus code time =>
      unfold vmrkStep
      dsimp only
      refine StInv_ite (StInv_ite ⟨hd, hb⟩ ⟨hd, hb⟩)
        (StInv_ite (StInv_ite ⟨?_, ?_⟩ ⟨hd, hb⟩)
          (StInv_ite ⟨hd, process_trial_bounds hb⟩ ⟨hd, hb⟩))
      · intro b hbmem
        dsimp only at hbmem
        rw [List.mem_append] at hbmem
        rcases hbmem with h1 | h2
        · exact hd b h1
        · rw [List.mem_singleton] at h2
          subst h2
          exact process_trial_bounds hb
      · intro rt hrt
        exact absurd hrt (List.not_mem_nil rt)

lemma foldl_vmrkStep_inv (ms : List Marker) :
    ∀ st : PState, StInv st → StInv (ms.foldl vmrkStep st) := by
  induction ms with
  | nil => intro st h; exact h
  | cons m t ih =>
      intro st h
      rw [List.foldl_cons]
      exact ih _ (vmrkStep_inv st m h)

lemma process_vmrk_bounds (ms : List Marker) :
    ∀ b ∈ process_vmrk ms, ∀ rt ∈ b.Rtim, low ≤ rt ∧ rt ≤ high := by
  have h0 : StInv initState := by
    constructor
    · intro b hb
      exact absurd hb (List.not_mem_nil b)
    · intro rt hrt
      exact absurd hrt (List.not_mem_nil rt)
  exact (foldl_vmrkStep_inv ms initState h0).1

lemma filter_outliers_lengths (b : Block) (lo hi : Int) :
    (Block.filter_outliers b lo hi).Code.length
        = (Block.filter_outliers b lo hi).Rtim.length
      ∧ (Block.filter_outliers b lo hi).Ntri.length
        = (Block.filter_outliers b lo hi).Rtim.length := by
  unfold Block.filter_outliers
  simp

lemma filter_outliers_eq_self {b2 : Block} {lo hi : Int}
    (hall : ∀ x ∈ b2.Rtim, lo ≤ x ∧ x ≤ hi)
    (hCode : b2.Code.length = b2.Rtim.length)
    (hNtri : b2.Ntri.length = b2.Rtim.length) :
    Block.filter_outliers b2 lo hi = b2 := by
  have hfil : b2.Rtim.enum.filter (fun p => lo ≤ p.2 && p.2 ≤ hi) = b2.Rtim.enum := by
    apply List.filter_eq_self.mpr
    intro p hp
    have h2 : b2.Rtim[p.1]? = some p.2 := List.mem_enum_iff_getElem?.mp hp
    have hmem : p.2 ∈ b2.Rtim := List.getElem?_mem h2
    have hx := hall p.2 hmem
    simp [hx.1, hx.2]
  have e1 : (List.range b2.Rtim.length).map
      (fun i => b2.Code.getD i ⟨"", false, false⟩) = b2.Code := by
    rw [← hCode]
    exact range_map_getD _ _
  have e2 : (List.range b2.Rtim.length).map (fun i => b2.Rtim.getD i 0) = b2.Rtim :=
    range_map_getD _ _
  have e3 : (List.range b2.Rtim.length).map (fun i => b2.Ntri.getD i 0) = b2.Ntri := by
    rw [← hNtri]
    exact range_map_getD _ _
  unfold Block.filter_outliers
  dsimp only
  rw [hfil, List.enum_map_fst, e1, e2, e3]

lemma enumFrom_filter_snd_map {α β : Type} (q : α → Bool) (g : α → β) :
    ∀ (l : List α) (n : ℕ),
      ((l.enumFrom n).filter (fun p => q p.2)).map (fun p => g p.2)
        = (l.filter q).map g := by
  intro l
  induction l with
  | nil => intro n; rfl
  | cons a t ih =>
      intro n
      rw [List.enumFrom_cons]
      simp only [List.filter_cons]
      by_cases hq : q a <;> simp [hq, ih]

lemma query_none_eq (b : Block) (s : Option String) (c k : Option Bool) :
    b.query s c k none
      = ((b.Code.zip b.Rtim).filter (fun z => sccMatch s c k z.1)).map
          (fun z => z.2) := by
  unfold Block.query
  simp only [Bool.and_true]
  exact enumFrom_filter_snd_map (fun z => sccMatch s c k z.1) (fun z => z.2)
    (b.Code.zip b.Rtim) 0

lemma collapse_query_none (data : List Block) (s : Option String)
    (c k : Option Bool) (hw : ∀ b ∈ data, b.Code.length = b.Rtim.length) :
    (collapse_blocks data).query s c k none
      = (data.map (fun b => b.query s c k none)).flatten := by
  rw [query_none_eq, collapse_blocks_eq]
  induction data with
  | nil => rfl
  | cons b t ih =>
      simp only [List.map_cons, List.flatten_cons]
      rw [List.zip_append (hw b (by simp))]
      rw [List.filter_append, List.map_append, query_none_eq]
      congr 1
      exact ih (fun b hb => hw b (List.mem_cons_of_mem _ hb))

lemma process_vmrk_collapse_bound (ms : List Marker) :
    ∀ x ∈ (collapse_blocks (process_vmrk ms)).Rtim, (150 : Int) ≤ x := by
  intro x hx
  rw [collapse_blocks_eq] at hx
  dsimp only at hx
  rw [List.mem_flatten] at hx
  obtain ⟨l, hl, hxl⟩ := hx
  rw [List.mem_map] at hl
  obtain ⟨b, hb, rfl⟩ := hl
  have := (process_vmrk_bounds ms b hb x hxl).1
  simpa [low] using this

lemma mem_snd_zip_filter {C : List Code} {R : List Int} {q : Code × Int → Bool}
    {x : Int} (hx : x ∈ ((C.zip R).filter q).map (fun p => p.2)) : x ∈ R := by
  rw [List.mem_map] at hx
  obtain ⟨p, hp, rfl⟩ := hx
  rw [List.mem_filter] at hp
  exact (List.of_mem_zip hp.1).2

lemma nodup_const_length {α : Type} {l : List α} {a : α}
    (hnd : l.Nodup) (hall : ∀ x ∈ l, x = a) : l.length ≤ 1 := by
  match l with
  | [] => simp
  | [x] => simp
  | x :: y :: t =>
      exfalso
      have hx := hall x (by simp)
      have hy := hall y (by simp)
      rw [List.nodup_cons] at hnd
      exact hnd.1 (by rw [hx, ← hy]; simp)

lemma query_scc_correct_nil {b : Block} {s : Option String}
    {cg lc : Option Bool} {v : Bool} (h : ∀ cd ∈ b.Code, cd.correct = v) :
    b.query s cg (some (!v)) lc = [] := by
  unfold Block.query
  rw [List.map_eq_nil_iff]
  apply List.filter_eq_nil_iff.mpr
  intro p hp
  have hz : p.2 ∈ b.Code.zip b.Rtim := List.getElem?_mem (List.mem_enum_iff_getElem?.mp hp)
  have hc : p.2.1 ∈ b.Code := (List.of_mem_zip hz).1
  have hcor := h p.2.1 hc
  simp only [sccMatch, hcor, Bool.and_eq_true, beq_iff_eq]
  cases v <;> simp

lemma query_lastcorrect_len_le_one {b : Block} {s : Option String}
    {cg k : Option Bool} {lc : Bool}
    (hprev : ∀ cd ∈ b.Code, cd.correct = !lc) :
    (b.query s cg k (some lc)).length ≤ 1 := by
  unfold Block.query
  rw [List.length_map]
  have hfst : ∀ p ∈ (b.Code.zip b.Rtim).enum.filter
      (fun p => sccMatch s cg k p.2.1
        && (if p.1 > 0 then
              (b.Code.getD (p.1 - 1) ⟨"", false, false⟩).correct == lc
            else true)),
      Prod.fst p = 0 := by
    intro p hp
    rw [List.mem_filter] at hp
    obtain ⟨hmem, hpred⟩ := hp
    by_contra h0
    have hpos : p.1 > 0 := Nat.pos_of_ne_zero h0
    have hlt : p.1 < (b.Code.zip b.Rtim).length := by
      have := List.mem_enum_iff_getElem?.mp hmem
      exact (List.getElem?_eq_some.mp this).1
    have hltC : p.1 - 1 < b.Code.length := by
      rw [List.length_zip] at hlt
      omega
    have hmemC : b.Code.getD (p.1 - 1) ⟨"", false, false⟩ ∈ b.Code := by
      rw [List.getD_eq_getElem _ _ hltC]
      exact List.getElem_mem hltC
    have hcor := hprev _ hmemC
    simp only [Bool.and_eq_true, if_pos hpos, beq_iff_eq, hcor] at hpred
    cases lc <;> simp at hpred
  have hnd : (((b.Code.zip b.Rtim).enum.filter
      (fun p => sccMatch s cg k p.2.1
        && (if p.1 > 0 then
              (b.Code.getD (p.1 - 1) ⟨"", false, false⟩).correct == lc
            else true))).map Prod.fst).Nodup := by
    have hr : ((b.Code.zip b.Rtim).enum.map Prod.fst).Nodup := by
      rw [List.enum_map_fst]
      exact List.nodup_range _
    exact hr.sublist ((List.filter_sublist _).map Prod.fst)
  have hlen := nodup_const_length hnd (by
    intro x hx
    rw [List.mem_map] at hx
    obtain ⟨p, hp, rfl⟩ := hx
    exact hfst p hp)
  rw [List.length_map] at hlen
  exact hlen

lemma dPostE_zero_of_all_correct (data : List Block)
    (h : ∀ b ∈ data, ∀ cd ∈ b.Code, cd.correct = true) : dPostE data = 0 := by
  have hS1 : ((data.map (fun b => b.query none none (some true) (some false))).map
      (fun x => max 0 ((x.length : ℤ) - 1))).sum = 0 := by
    apply List.sum_eq_zero
    intro x hx
    simp only [List.map_map, List.mem_map, Function.comp] at hx
    obtain ⟨b, hb, rfl⟩ := hx
    have hle : (b.query none none (some true) (some false)).length ≤ 1 :=
      query_lastcorrect_len_le_one (by
        intro cd hc
        simpa using h b hb cd hc)
    have hneg : ((b.query none none (some true) (some false)).length : ℤ) - 1 ≤ 0 := by
      omega
    exact max_eq_left hneg
  have hS2 : ((data.map (fun b => b.query none none (some false) (some false))).map
      (fun x => max 0 ((x.length : ℤ) - 1))).sum = 0 := by
    apply List.sum_eq_zero
    intro x hx
    simp only [List.map_map, List.mem_map, Function.comp] at hx
    obtain ⟨b, hb, rfl⟩ := hx
    have hnil : b.query none none (some false) (some false) = [] :=
      @query_scc_correct_nil b none none (some false) true (h b hb)
    rw [hnil]
    decide
  unfold dPostE
  rw [hS1, hS2]
  norm_num

lemma dPostC_zero_of_all_error (data : List Block)
    (h : ∀ b ∈ data, ∀ cd ∈ b.Code, cd.correct = false) : dPostC data = 0 := by
  have hS1 : ((data.map (fun b => b.query none none (some true) (some true))).map
      (fun x => max 0 ((x.length : ℤ) - 1))).sum = 0 := by
    apply List.sum_eq_zero
    intro x hx
    simp only [List.map_map, List.mem_map, Function.comp] at hx
    obtain ⟨b, hb, rfl⟩ := hx
    have hnil : b.query none none (some true) (some true) = [] :=
      @query_scc_correct_nil b none none (some true) false (h b hb)
    rw [hnil]
    decide
  have hS2 : ((data.map (fun b => b.query none none (some false) (some true))).map
      (fun x => max 0 ((x.length : ℤ) - 1))).sum = 0 := by
    apply List.sum_eq_zero
    intro x hx
    simp only [List.map_map, List.mem_map, Function.comp] at hx
    obtain ⟨b, hb, rfl⟩ := hx
    have hle : (b.query none none (some false) (some true)).length ≤ 1 :=
      query_lastcorrect_len_le_one (by
        intro cd hc
        simpa using h b hb cd hc)
    have hneg : ((b.query none none (some false) (some true)).length : ℤ) - 1 ≤ 0 := by
      omega
    exact max_eq_left hneg
  unfold dPostC
  rw [hS1, hS2]
  norm_num

lemma dAll_zero_of_nil (data : List Block)
    (h : (collapse_blocks data).Rtim = []) : dAll data = 0 := by
  unfold dAll
  rw [h]
  norm_num

lemma except_map_ok {α β : Type} (g : α → β) (x : α) :
    Except.map g (Except.ok x : Except Unit α) = Except.ok (g x) := rfl

/-- C1 counterexample: in a one-record block, `query` with the `lastcorrect`
filter set (to either boolean) returns the first record's response time —
the first record is included, not excluded. -/
theorem C1_cex :
    Block.query cexBlockC1 none none none (some true) = [200]
      ∧ Block.query cexBlockC1 none none none (some false) = [200] := by
  decide

/-- C1 (amended): when `lastcorrect` is set, the `lastcorrect` test is only
applied at indices `j > 0`; the record at index 0 bypasses it, so whenever
the block's first record satisfies the side/congruent/correct predicates it
is the first element of the query result, for either value of the
`lastcorrect` filter. -/
theorem C1_thm (b : Block) (s : Option String) (c k : Option Bool) (lc : Bool)
    (c0 : Code) (r0 : Int) (tC : List Code) (tR : List Int)
    (hC : b.Code = c0 :: tC) (hR : b.Rtim = r0 :: tR)
    (hm : sccMatch s c k c0 = true) :
    (b.query s c k (some lc)).head? = some r0 := by
  unfold Block.query
  rw [hC, hR, List.zip_cons_cons, List.enum_cons]
  simp only [List.filter_cons, hm]
  simp

/-- C1 witness: a concrete two-record block whose first record matches the
`correct` predicate; the query with `lastcorrect` set starts with its
response time. -/
theorem C1_witness :
    (Block.query
        { Code := [⟨"left", true, true⟩, ⟨"left", true, false⟩],
          Rtim := [200, 300], Ntri := [3, 3] }
        none none (some true) (some true)).head? = some 200 :=
  C1_thm _ none none (some true) true ⟨"left", true, true⟩ 200
    [⟨"left", true, false⟩] [300] rfl rfl (by decide)

/-- C2 counterexample: on the scenario-A stream the pipeline yields one block
with zero trial records — not a dataset containing one record. -/
theorem C2_cex :
    process_vmrk scenarioA = [{ Code := [], Rtim := [], Ntri := [] }] := by
  decide

/-- C2 (amended): on the scenario-A stream the assembler does produce the
record `side=left, congruent=true, correct=true, responseTimeMs=20` from the
window `S99, S1, S5`, but `process_trial`'s outlier filter removes it
(`20 < low = 150`), so the resulting dataset is one empty block. -/
theorem C2_thm :
    process_vmrk scenarioA = [{ Code := [], Rtim := [], Ntri := [] }]
      ∧ assemble [⟨99, 10⟩, ⟨1, 11⟩, ⟨5, 21⟩]
          = some (⟨"left", true, true⟩, 20, 3)
      ∧ ¬ (low ≤ 20) := by
  decide

/-- C3 counterexample: after `99, 99, 99, 99, 144, 255` the segmenter is
still in practice mode: the third 99 was seen and a 144 then a 255 followed,
yet the transition did not fire (the gate tests `n99 == 3` exactly, and the
fourth 99 ruined it). -/
theorem C3_cex : (process_vmrk_state cexStreamC3).practiceMode = true := by
  decide

/-- C3 (amended): from a practice state, one stimulus marker switches the
segmenter to experiment mode exactly when, with the 99-counter updated by
this marker, the counter equals exactly 3, the 144-flag (which is only set
while the counter equals exactly 3) holds, and the code is 255; the marker
is consumed: nothing is buffered (`qu` unchanged) and no block is emitted
(`data` unchanged) while in practice mode. -/
theorem C3_thm (st : PState) (code time : Int) (hp : st.practiceMode = true) :
    ((vmrkStep st (.stimulus code time)).practiceMode = false
        ↔ ((if code = 99 then st.n99 + 1 else st.n99) = 3
            ∧ (if (if code = 99 then st.n99 + 1 else st.n99) = 3 ∧ code = 144
                then true else st.n144) = true
            ∧ code = 255))
      ∧ (vmrkStep st (.stimulus code time)).qu = st.qu
      ∧ (vmrkStep st (.stimulus code time)).data = st.data := by
  unfold vmrkStep
  dsimp only
  rw [if_pos hp]
  by_cases hcond : ((if code = 99 then st.n99 + 1 else st.n99) = 3
      ∧ (if (if code = 99 then st.n99 + 1 else st.n99) = 3 ∧ code = 144
          then true else st.n144) = true
      ∧ code = 255)
  · rw [if_pos hcond]
    exact ⟨⟨fun _ => hcond, fun _ => rfl⟩, rfl, rfl⟩
  · rw [if_neg hcond]
    refine ⟨⟨fun hmode => ?_, fun h2 => absurd h2 hcond⟩, rfl, rfl⟩
    exact absurd (hp.symm.trans hmode) (by simp)

/-- C3 witness: from the ready practice state, a 255 marker does switch to
experiment mode and buffers nothing. -/
theorem C3_witness :
    (vmrkStep stC3 (.stimulus 255 0)).practiceMode = false
      ∧ (vmrkStep stC3 (.stimulus 255 0)).qu = stC3.qu :=
  ⟨((C3_thm stC3 255 0 rfl).1).mpr (by decide), (C3_thm stC3 255 0 rfl).2.1⟩

/-- C6: the outlier bounds are 150 and 3000; one `process_trial` insertion
into a block whose records are in bounds leaves every retained record in
bounds; and every block of every pipeline result satisfies the invariant. -/
theorem C6_thm :
    low = 150 ∧ high = 3000
      ∧ (∀ (qu : List Trial) (b : Block),
          (∀ rt ∈ b.Rtim, low ≤ rt ∧ rt ≤ high) →
          ∀ rt ∈ (process_trial qu b).Rtim, low ≤ rt ∧ rt ≤ high)
      ∧ (∀ ms : List Marker, ∀ b ∈ process_vmrk ms, ∀ rt ∈ b.Rtim,
          low ≤ rt ∧ rt ≤ high) :=
  ⟨rfl, rfl, fun _ _ hb => process_trial_bounds hb, process_vmrk_bounds⟩

/-- C6 witness: the record inserted by a concrete `process_trial` call (with
response time 200) is within the outlier bounds. -/
theorem C6_witness : low ≤ (200 : Int) ∧ (200 : Int) ≤ high :=
  C6_thm.2.2.1 [⟨99, 0⟩, ⟨1, 10⟩, ⟨5, 110⟩] { Code := [], Rtim := [], Ntri := [] }
    (by simp) 200 (by decide)

/-- C7: the assembler returns `none` exactly when the window has fewer than
3 markers or its first marker's code is not 99; on a window
`t0 :: t1 :: t2 :: rest` with `t0.srcode = 99` it returns the record with
response time exactly `2 * (t2.time - t1.time)` (no clamping, so it may be
negative) and trial size the window length. -/
theorem C7_thm (qu : List Trial) :
    (assemble qu = none ↔ qu.length < 3 ∨ (qu.getD 0 ⟨0, 0⟩).srcode ≠ 99)
      ∧ (∀ t0 t1 t2 rest, qu = t0 :: t1 :: t2 :: rest → t0.srcode = 99 →
          assemble qu = some (Code.fromSRCodes t1.srcode t2.srcode,
            2 * (t2.time - t1.time), (t0 :: t1 :: t2 :: rest).length)) := by
  constructor
  · unfold assemble
    split
    · next h => exact iff_of_true rfl h
    · next h => exact iff_of_false (fun hc => Option.noConfusion hc) h
  · rintro t0 t1 t2 rest rfl h99
    unfold assemble
    rw [if_neg]
    · simp only [List.getD_cons_succ, List.getD_cons_zero]
    · rintro (hlen | hsr)
      · simp only [List.length_cons] at hlen
        omega
      · exact hsr (by simpa using h99)

/-- C7 witness: a window with unordered timestamps yields a negative
response time (no clamping), and a two-marker window yields no record. -/
theorem C7_witness :
    assemble [⟨99, 0⟩, ⟨1, 10⟩, ⟨5, 5⟩] = some (⟨"left", true, true⟩, -10, 3)
      ∧ assemble [⟨99, 0⟩, ⟨1, 10⟩] = none := by
  constructor
  · rw [(C7_thm _).2 ⟨99, 0⟩ ⟨1, 10⟩ ⟨5, 5⟩ [] rfl rfl]
    decide
  · exact (C7_thm [⟨99, 0⟩, ⟨1, 10⟩]).1.mpr (Or.inl (by decide))

/-- C8: for well-formed blocks, querying the collapsed dataset without the
`lastcorrect` predicate equals the concatenation of the per-block query
results in block order. -/
theorem C8_thm (data : List Block) (s : Option String) (c k : Option Bool)
    (hw : ∀ b ∈ data, b.Code.length = b.Rtim.length) :
    (collapse_blocks data).query s c k none
      = (data.map (fun b => b.query s c k none)).flatten :=
  collapse_query_none data s c k hw

/-- C8 witness: the equivalence evaluated on a concrete two-block dataset. -/
theorem C8_witness :
    (collapse_blocks [blkW1, blkW2]).query (some "left") none (some true) none
      = ([blkW1, blkW2].map
          (fun b => b.query (some "left") none (some true) none)).flatten :=
  C8_thm [blkW1, blkW2] (some "left") none (some true) (by decide)

/-- C9: `filter_outliers` is idempotent: re-running it with the same bounds
on an already-filtered block is a no-op. -/
theorem C9_thm (b : Block) (lo hi : Int) :
    Block.filter_outliers (Block.filter_outliers b lo hi) lo hi
      = Block.filter_outliers b lo hi :=
  filter_outliers_eq_self (fun _ hx => filter_outliers_Rtim_mem hx)
    (filter_outliers_lengths b lo hi).1 (filter_outliers_lengths b lo hi).2

/-- C4: every zero denominator among the five accuracy/ratio statistics makes
`summarize_vmrk` raise; and in a completed run each post-X mean whose
corresponding post-X count is zero is the number 0 (not NaN, not an error). -/
theorem C4_thm (sq : ℚ → ℚ) (f : String) (data : List Block) :
    ((dAll data = 0 ∨ dCong data = 0 ∨ dIncong data = 0 ∨ dPostC data = 0
        ∨ dPostE data = 0) → summarize_vmrk sq f data = .error ())
      ∧ (summarize_vmrk sq f data ≠ .error () →
          (fpcenCount data = 0 →
              Except.map (fun r => List.lookup "fpcertm" r)
                (summarize_vmrk sq f data) = .ok (some (.num 0)))
            ∧ (fpecnCount data = 0 →
              Except.map (fun r => List.lookup "fpecrtm" r)
                (summarize_vmrk sq f data) = .ok (some (.num 0)))
            ∧ (fpeenCount data = 0 →
              Except.map (fun r => List.lookup "fpeertm" r)
                (summarize_vmrk sq f data) = .ok (some (.num 0)))
            ∧ (fpexnCount data = 0 →
              Except.map (fun r => List.lookup "fpexrtm" r)
                (summarize_vmrk sq f data) = .ok (some (.num 0)))
            ∧ (fpxenCount data = 0 →
              Except.map (fun r => List.lookup "fpxertm" r)
                (summarize_vmrk sq f data) = .ok (some (.num 0)))) := by
  constructor
  · intro h
    rw [summarize_eq, if_pos h]
  · intro hne
    rw [summarize_eq] at hne
    by_cases hc : (dAll data = 0 ∨ dCong data = 0 ∨ dIncong data = 0
        ∨ dPostC data = 0 ∨ dPostE data = 0)
    · rw [if_pos hc] at hne
      exact absurd rfl hne
    · refine ⟨fun h0 => ?_, fun h0 => ?_, fun h0 => ?_, fun h0 => ?_, fun h0 => ?_⟩ <;>
        rw [summarize_eq, if_neg hc]
      · simp only [except_map_ok, lookup_fpcertm, h0]
        norm_num
      · simp only [except_map_ok, lookup_fpecrtm, h0]
        norm_num
      · simp only [except_map_ok, lookup_fpeertm, h0]
        norm_num
      · simp only [except_map_ok, lookup_fpexrtm, h0]
        norm_num
      · simp only [except_map_ok, lookup_fpxertm, h0]
        norm_num

/-- C4 witness: the empty dataset makes `summarize_vmrk` raise (zero total
trials), and on the concrete dataset `d4` (whose `fpeen` count is 0 while
all five denominators are nonzero) the post-error-error mean is 0. -/
theorem C4_witness :
    summarize_vmrk sq0 "f" [] = .error ()
      ∧ Except.map (fun r => List.lookup "fpeertm" r) (summarize_vmrk sq0 "f" d4)
          = .ok (some (.num 0)) := by
  constructor
  · exact (C4_thm sq0 "f" []).1
      (Or.inl (by simp only [dAll, Nat.cast_eq_zero]; decide))
  · have hcF : ¬(dAll d4 = 0 ∨ dCong d4 = 0 ∨ dIncong d4 = 0 ∨ dPostC d4 = 0
        ∨ dPostE d4 = 0) := by
      simp only [dAll, dCong, dIncong, dPostC, dPostE, Nat.cast_eq_zero,
        Int.cast_eq_zero]
      decide
    have hne : summarize_vmrk sq0 "f" d4 ≠ .error () := by
      rw [summarize_eq, if_neg hcF]
      exact fun h => Except.noConfusion h
    exact ((C4_thm sq0 "f" d4).2 hne).2.2.1 (by decide)

/-- C5 counterexample: on the concrete dataset `d4`, `summarize_vmrk`
completes without error and the congruent-correct mean `fcrtmc` (an empty
selection) is NaN — not an error surfaced to the caller. -/
theorem C5_cex :
    Except.map (fun r => List.lookup "fcrtmc" r) (summarize_vmrk sq0 "f" d4)
      = .ok (some .nan) := by
  have hcF : ¬(dAll d4 = 0 ∨ dCong d4 = 0 ∨ dIncong d4 = 0 ∨ dPostC d4 = 0
      ∨ dPostE d4 = 0) := by
    simp only [dAll, dCong, dIncong, dPostC, dPostE, Nat.cast_eq_zero,
      Int.cast_eq_zero]
    decide
  rw [summarize_eq, if_neg hcF]
  simp only [except_map_ok, lookup_fcrtmc]
  rw [show (collapse_blocks d4).query none (some true) (some true) none = []
    from by decide]
  rfl

/-- C5 (amended): in a run of `summarize_vmrk` that completes, an empty
congruency-by-correctness cell makes the corresponding mean and standard
deviation NaN, silently — not an error; and an empty all-trials selection, an
all-correct dataset (empty error selection) or an all-error dataset (empty
correct selection) each force a zero accuracy denominator (`dAll`, `dPostE`,
`dPostC` respectively), so `summarize_vmrk` raises and the NaN means
`frtm`/`frtsd`/`frtmc`/`frtsdc`/`frtme`/`frtsde` are never observed in a
completed run. -/
theorem C5_thm (sq : ℚ → ℚ) (f : String) (data : List Block) :
    (summarize_vmrk sq f data ≠ .error () →
      (((collapse_blocks data).query none (some true) (some true) none = [] →
        Except.map (fun r => List.lookup "fcrtmc" r) (summarize_vmrk sq f data)
            = .ok (some .nan)
          ∧ Except.map (fun r => List.lookup "fcrtsdc" r) (summarize_vmrk sq f data)
            = .ok (some .nan))
      ∧ ((collapse_blocks data).query none (some true) (some false) none = [] →
        Except.map (fun r => List.lookup "fcrtme" r) (summarize_vmrk sq f data)
            = .ok (some .nan)
          ∧ Except.map (fun r => List.lookup "fcrtsde" r) (summarize_vmrk sq f data)
            = .ok (some .nan))
      ∧ ((collapse_blocks data).query none (some false) (some true) none = [] →
        Except.map (fun r => List.lookup "firtmc" r) (summarize_vmrk sq f data)
            = .ok (some .nan)
          ∧ Except.map (fun r => List.lookup "firtsdc" r) (summarize_vmrk sq f data)
            = .ok (some .nan))
      ∧ ((collapse_blocks data).query none (some false) (some false) none = [] →
        Except.map (fun r => List.lookup "firtme" r) (summarize_vmrk sq f data)
            = .ok (some .nan)
          ∧ Except.map (fun r => List.lookup "firtsde" r) (summarize_vmrk sq f data)
            = .ok (some .nan))))
      ∧ ((collapse_blocks data).Rtim = [] → summarize_vmrk sq f data = .error ())
      ∧ ((∀ b ∈ data, ∀ cd ∈ b.Code, cd.correct = true) →
          summarize_vmrk sq f data = .error ())
      ∧ ((∀ b ∈ data, ∀ cd ∈ b.Code, cd.correct = false) →
          summarize_vmrk sq f data = .error ()) := by
  refine ⟨fun hne => ?_, fun h => ?_, fun h => ?_, fun h => ?_⟩
  case refine_2 =>
    rw [summarize_eq, if_pos (Or.inl (dAll_zero_of_nil data h))]
  case refine_3 =>
    rw [summarize_eq,
      if_pos (Or.inr (Or.inr (Or.inr (Or.inr (dPostE_zero_of_all_correct data h)))))]
  case refine_4 =>
    rw [summarize_eq,
      if_pos (Or.inr (Or.inr (Or.inr (Or.inl (dPostC_zero_of_all_error data h)))))]
  rw [summarize_eq] at hne
  by_cases hc : (dAll data = 0 ∨ dCong data = 0 ∨ dIncong data = 0
      ∨ dPostC data = 0 ∨ dPostE data = 0)
  · rw [if_pos hc] at hne
    exact absurd rfl hne
  · refine ⟨fun h0 => ⟨?_, ?_⟩, fun h0 => ⟨?_, ?_⟩, fun h0 => ⟨?_, ?_⟩,
      fun h0 => ⟨?_, ?_⟩⟩ <;>
      rw [summarize_eq, if_neg hc]
    · simp only [except_map_ok, lookup_fcrtmc, h0, npMean_nil]
    · simp only [except_map_ok, lookup_fcrtsdc, h0, npStd_nil]
    · simp only [except_map_ok, lookup_fcrtme, h0, npMean_nil]
    · simp only [except_map_ok, lookup_fcrtsde, h0, npStd_nil]
    · simp only [except_map_ok, lookup_firtmc, h0, npMean_nil]
    · simp only [except_map_ok, lookup_firtsdc, h0, npStd_nil]
    · simp only [except_map_ok, lookup_firtme, h0, npMean_nil]
    · simp only [except_map_ok, lookup_firtsde, h0, npStd_nil]

/-- C5 witness: applying the amended statement to `d4` (empty
congruent-correct cell, run completes) yields NaN for `fcrtsdc`, and to the
all-correct dataset `dAllCorrect`, where `summarize_vmrk` raises. -/
theorem C5_witness :
    Except.map (fun r => List.lookup "fcrtsdc" r) (summarize_vmrk sq0 "f" d4)
        = .ok (some .nan)
      ∧ summarize_vmrk sq0 "f" dAllCorrect = .error () := by
  constructor
  · have hcF : ¬(dAll d4 = 0 ∨ dCong d4 = 0 ∨ dIncong d4 = 0 ∨ dPostC d4 = 0
        ∨ dPostE d4 = 0) := by
      simp only [dAll, dCong, dIncong, dPostC, dPostE, Nat.cast_eq_zero,
        Int.cast_eq_zero]
      decide
    have hne : summarize_vmrk sq0 "f" d4 ≠ .error () := by
      rw [summarize_eq, if_neg hcF]
      exact fun h => Except.noConfusion h
    exact (((C5_thm sq0 "f" d4).1 hne).1 (by decide)).2
  · exact (C5_thm sq0 "f" dAllCorrect).2.2.1 (by decide)

/-- C10: whenever `summarize_vmrk` completes on a pipeline-produced dataset,
the anticipatory counts `fan` and `faen` are 0: every retained response time
is at least 150, so the strict `< 150` test never fires. -/
theorem C10_thm (sq : ℚ → ℚ) (f : String) (ms : List Marker)
    (hne : summarize_vmrk sq f (process_vmrk ms) ≠ .error ()) :
    Except.map (fun r => List.lookup "fan" r)
        (summarize_vmrk sq f (process_vmrk ms)) = .ok (some (.num 0))
      ∧ Except.map (fun r => List.lookup "faen" r)
        (summarize_vmrk sq f (process_vmrk ms)) = .ok (some (.num 0)) := by
  rw [summarize_eq] at hne
  by_cases hc : (dAll (process_vmrk ms) = 0 ∨ dCong (process_vmrk ms) = 0
      ∨ dIncong (process_vmrk ms) = 0 ∨ dPostC (process_vmrk ms) = 0
      ∨ dPostE (process_vmrk ms) = 0)
  · rw [if_pos hc] at hne
    exact absurd rfl hne
  · have hanti : ∀ x ∈ (collapse_blocks (process_vmrk ms)).Rtim,
        ¬(isAnticipatory x = true) := by
      intro x hx
      have h150 := process_vmrk_collapse_bound ms x hx
      simp only [isAnticipatory, decide_eq_true_eq]
      omega
    constructor
    · rw [summarize_eq, if_neg hc]
      simp only [except_map_ok, lookup_fan]
      rw [List.countP_eq_zero.mpr hanti]
      norm_num
    · rw [summarize_eq, if_neg hc]
      simp only [except_map_ok, lookup_faen]
      have hsub : ∀ x ∈ (((collapse_blocks (process_vmrk ms)).Code.zip
          (collapse_blocks (process_vmrk ms)).Rtim).filter
            (fun p => !p.1.correct)).map (fun p => p.2),
          ¬(isAnticipatory x = true) :=
        fun x hx => hanti x (mem_snd_zip_filter hx)
      rw [List.countP_eq_zero.mpr hsub]
      norm_num

/-- C10 witness: the stream `s10` produces a dataset on which
`summarize_vmrk` completes, and its `fan` statistic is 0. -/
theorem C10_witness :
    Except.map (fun r => List.lookup "fan" r)
        (summarize_vmrk sq0 "f" (process_vmrk s10)) = .ok (some (.num 0)) := by
  have hcF : ¬(dAll (process_vmrk s10) = 0 ∨ dCong (process_vmrk s10) = 0
      ∨ dIncong (process_vmrk s10) = 0 ∨ dPostC (process_vmrk s10) = 0
      ∨ dPostE (process_vmrk s10) = 0) := by
    simp only [dAll, dCong, dIncong, dPostC, dPostE, Nat.cast_eq_zero,
      Int.cast_eq_zero]
    decide
  have hne : summarize_vmrk sq0 "f" (process_vmrk s10) ≠ .error () := by
    rw [summarize_eq, if_neg hcF]
    exact fun h => Except.noConfusion h
  exact (C10_thm sq0 "f" s10 hne).1
